import Mathlib

/-!
Verification of the core of `saveris_scraper/app.py`: the measurement-cell
parser, the table extractor, the scrape cycle, and the background publish
loop, shallowly embedded in Lean.  Machine floats are modelled as exact
rationals: the source never does float arithmetic, it only converts decimal
literals with `float(...)`.
-/

namespace SaverisScraper

/-! ## Measurement cell parser (`_extract_float`, `parse_measurements_cell`) -/

/-- Python `str.strip()` on a character list: drop whitespace at both ends. -/
def pyStrip (cs : List Char) : List Char :=
  ((cs.dropWhile Char.isWhitespace).reverse.dropWhile Char.isWhitespace).reverse

/-- Python `str.strip()` on a string. -/
def pstrip (s : String) : String := ⟨pyStrip s.data⟩

/-- Split a character list at line breaks, accumulating the current line. -/
def splitLinesAux : List Char → List Char → List (List Char)
  | [], acc => [acc.reverse]
  | c :: cs, acc =>
      if c = '\n' ∨ c = '\r' then acc.reverse :: splitLinesAux cs []
      else splitLinesAux cs (c :: acc)

/-- The non-empty stripped lines of a cell text:
`[ln.strip() for ln in (cell_text or "").splitlines() if ln.strip()]`. -/
def cellLines (s : String) : List (List Char) :=
  ((splitLinesAux s.data []).map pyStrip).filter (fun l => !l.isEmpty)

/-- Value of a run of decimal digits. -/
def digitsVal (ds : List Char) : Nat :=
  ds.foldl (fun a c => a * 10 + (c.toNat - 48)) 0

/-- Leading signed decimal number of an already-stripped character list,
the regex `([+-]?\d+(?:\.\d+)?)` anchored at the start. -/
def extractNum (cs : List Char) : Option Rat :=
  let (sg, cs1) : Int × List Char :=
    match cs with
    | '+' :: r => (1, r)
    | '-' :: r => (-1, r)
    | r => (1, r)
  let ds := cs1.takeWhile Char.isDigit
  if ds.isEmpty then none
  else
    match cs1.dropWhile Char.isDigit with
    | '.' :: r2 =>
        let fs := r2.takeWhile Char.isDigit
        if fs.isEmpty then some (mkRat (sg * digitsVal ds) 1)
        else some (mkRat (sg * (digitsVal ds * 10 ^ fs.length + digitsVal fs)) (10 ^ fs.length))
    | _ => some (mkRat (sg * digitsVal ds) 1)

/-- The body of `_extract_float` on a character list: `None` on empty input,
else match
the number pattern at the start of the stripped text. -/
def extractFloatChars (cs : List Char) : Option Rat :=
  if cs.isEmpty then none else extractNum (pyStrip cs)

/-- The source's `_extract_float(s)`. -/
def extract_float (s : String) : Option Rat := extractFloatChars s.data

/-- Result record of `parse_measurements_cell`: all fields default `None`. -/
structure CellOut where
  temperature_c : Option Rat
  humidity_pct : Option Rat
  dew_point_c : Option Rat
  absolute_humidity_gm3 : Option Rat
deriving Repr, DecidableEq

/-- The all-`None` initial value of the output dict. -/
def CellOut.init : CellOut := ⟨none, none, none, none⟩

/-- Boolean substring containment, Python's `needle in hay`. -/
def listPrefixEq : List Char → List Char → Bool
  | [], _ => true
  | _ :: _, [] => false
  | a :: as, b :: bs => a == b && listPrefixEq as bs

/-- Python's `n in h` on character lists. -/
def containsSeq (n : List Char) : List Char → Bool
  | [] => n.isEmpty
  | c :: cs => listPrefixEq n (c :: cs) || containsSeq n cs

/-- One iteration of the `for ln in lines` loop of `parse_measurements_cell`:
lowercase the line, extract its leading number, and if one exists assign it
to the field of the first matching unit marker. -/
def stepLine (out : CellOut) (ln : List Char) : CellOut :=
  let l := ln.map Char.toLower
  match extractFloatChars ln with
  | none => out
  | some v =>
      if containsSeq "°c td".data l then { out with dew_point_c := some v }
      else if containsSeq "%rh".data l then { out with humidity_pct := some v }
      else if containsSeq "g/m³".data l || containsSeq "g/m3".data l then
        { out with absolute_humidity_gm3 := some v }
      else if containsSeq "°c".data l then { out with temperature_c := some v }
      else out

/-- The source's `parse_measurements_cell(cell_text)`. -/
def parse_measurements_cell (s : String) : CellOut :=
  (cellLines s).foldl stepLine CellOut.init

/-! ### Specification-side view of the cell parser -/

/-- The four measurement fields. -/
inductive MField where
  | temp | hum | dew | abs
deriving Repr, DecidableEq

/-- Unit classification of one (stripped, lowercased) line, in the spec's
precedence order: dew point, relative humidity, absolute humidity,
temperature; `none` when no marker occurs. -/
def classifyLine (ln : List Char) : Option MField :=
  let l := ln.map Char.toLower
  if containsSeq "°c td".data l then some .dew
  else if containsSeq "%rh".data l then some .hum
  else if containsSeq "g/m³".data l || containsSeq "g/m3".data l then some .abs
  else if containsSeq "°c".data l then some .temp
  else none

/-- The contribution of one line: its field and value, or `none` when the
line has no numeric prefix or no unit marker. -/
def lineEntry (ln : List Char) : Option (MField × Rat) :=
  match extractFloatChars ln, classifyLine ln with
  | some v, some f => some (f, v)
  | _, _ => none

/-- Project a field out of a `CellOut`. -/
def getMField : MField → CellOut → Option Rat
  | .temp, o => o.temperature_c
  | .hum, o => o.humidity_pct
  | .dew, o => o.dew_point_c
  | .abs, o => o.absolute_humidity_gm3

/-- Assign a field of a `CellOut`. -/
def setMField (o : CellOut) : MField → Rat → CellOut
  | .temp, v => { o with temperature_c := some v }
  | .hum, v => { o with humidity_pct := some v }
  | .dew, v => { o with dew_point_c := some v }
  | .abs, v => { o with absolute_humidity_gm3 := some v }

/-- The value of the last entry classified to field `f`, if any: the first
match of the reversed entry list. -/
def lastFor (f : MField) (es : List (MField × Rat)) : Option Rat :=
  (es.reverse.find? (fun e => decide (e.1 = f))).map Prod.snd

/-- The cell parser as the spec words it: split into non-empty trimmed
lines, classify each line that has a numeric prefix, and let each field
hold the value of the last line classified to it. -/
def parse_cell_spec (s : String) : CellOut :=
  let es := (cellLines s).filterMap lineEntry
  ⟨lastFor .temp es, lastFor .hum es, lastFor .dew es, lastFor .abs es⟩

/-! ## Table extractor (`parse_measuring_points`) -/

/-- One `<td>` cell as the extractor reads it: its rendered `.text`, its
`innerText` attribute (`none` when the attribute is absent), and the text of
a nested `<a>` element (`none` when `find_element` raises
`NoSuchElementException`). -/
structure Cell where
  text : String
  innerText : Option String
  linkText : Option String
deriving Repr, DecidableEq

/-- A default cell, used only past the length-checked bound. -/
def Cell.dflt : Cell := ⟨"", none, none⟩

/-- One `<tr>` row: its `class` attribute (`none` when absent) and its
`<td>` cells in order. -/
structure Row where
  classAttr : Option String
  cells : List Cell
deriving Repr, DecidableEq

/-- One extracted measuring-point record, the dict appended to `results`. -/
structure Record where
  measuring_point : String
  group : Option String
  temperature_c : Option Rat
  humidity_pct : Option Rat
  dew_point_c : Option Rat
  absolute_humidity_gm3 : Option Rat
  last_measurement : Option String
  internal_id : Option String
deriving Repr, DecidableEq

/-- Python `s or None` after a strip: empty string becomes `None`. -/
def emptyToNone (s : String) : Option String :=
  if s = "" then none else some s

/-- The group of cell 3: the stripped text of a nested link when one exists
(`(tds[3].find_element(By.TAG_NAME, "a").text or "").strip()`), else the
cell's own stripped text or `None` when that is empty. -/
def groupOf (c : Cell) : Option String :=
  match c.linkText with
  | some t => some (pstrip t)
  | none => emptyToNone (pstrip c.text)

/-- The raw measurements text of cell 4:
`(tds[4].get_attribute("innerText") or tds[4].text or "").strip()`. -/
def cellRawText (c : Cell) : String :=
  pstrip (if (c.innerText.getD "") = "" then c.text else c.innerText.getD "")

/-- Whether the row-loop keeps a row: not a `row-details` row and at least
7 cells. -/
def keepRow (tr : Row) : Bool :=
  !containsSeq "row-details".data ((tr.classAttr.getD "").data) &&
    !(tr.cells.length < 7)

/-- The record built from one kept row (cells 2..6). -/
def rowRecord (tr : Row) : Record :=
  let tds := tr.cells
  let parsed := parse_measurements_cell (cellRawText (tds.getD 4 Cell.dflt))
  { measuring_point := pstrip (tds.getD 2 Cell.dflt).text
    group := groupOf (tds.getD 3 Cell.dflt)
    temperature_c := parsed.temperature_c
    humidity_pct := parsed.humidity_pct
    dew_point_c := parsed.dew_point_c
    absolute_humidity_gm3 := parsed.absolute_humidity_gm3
    last_measurement := emptyToNone (pstrip (tds.getD 5 Cell.dflt).text)
    internal_id := emptyToNone (pstrip (tds.getD 6 Cell.dflt).text) }

/-- The source's `parse_measuring_points`: the `for tr in trs` loop with its two
`continue` guards, appending one record per surviving row. -/
def parse_measuring_points : List Row → List Record
  | [] => []
  | tr :: rest =>
      if containsSeq "row-details".data ((tr.classAttr.getD "").data) then
        parse_measuring_points rest
      else if tr.cells.length < 7 then
        parse_measuring_points rest
      else
        rowRecord tr :: parse_measuring_points rest

/-- The group of cell 3 as the amended claim words it: the trimmed link
text whenever a link exists (even when that text is empty), otherwise the
cell's trimmed text, and `null` only when no link exists and the cell text
is empty. -/
def groupSpecAmended (c : Cell) : Option String :=
  match c.linkText with
  | some t => some (pstrip t)
  | none =>
      if pstrip c.text = "" then none else some (pstrip c.text)

/-! ## Scrape cycle (`scrape_once`) and publish loop (`background_loop`) -/

/-- The class of a Python exception, as far as the `except` clause of
`scrape_once` distinguishes them: `RuntimeError`, `WebDriverException`
(subclasses included), `TimeoutException`, or anything else. -/
inductive ExcClass where
  | runtimeError | webDriver | timeoutExc | other
deriving Repr, DecidableEq

/-- A raised exception: its class and its `str(e)` message. -/
structure PyExc where
  cls : ExcClass
  msg : String
deriving Repr, DecidableEq

/-- Whether `except (RuntimeError, WebDriverException, TimeoutException)`
catches an exception of this class. -/
def isCaught : ExcClass → Bool
  | .runtimeError => true
  | .webDriver => true
  | .timeoutExc => true
  | .other => false

/-- The published snapshot dict.  `error = none` models the `error` key
being absent. -/
structure Snapshot where
  status : String
  count : Nat
  measuring_points : List Record
  error : Option String
deriving Repr, DecidableEq

/-- The module-level initial `_latest` value. -/
def initialLatest : Snapshot := ⟨"init", 0, [], none⟩

/-- Observable calls on the browser-session capability during one cycle. -/
inductive SessionEvent where
  | sessionOpen | sessionQuit
deriving Repr, DecidableEq

/-- The environment one call of `scrape_once` runs in: the resolved
credentials, the outcome of `open_browser` (`some e` when it raises), the
outcome of everything done with the open session — login, navigation, the
table wait and the extraction reads (`some e` when any of them raises) —
and the table rows found when all of that succeeds. -/
structure ScrapeEnv where
  email : String
  password : String
  openOutcome : Option PyExc
  cycleOutcome : Option PyExc
  tableRows : List Row
deriving Repr, DecidableEq

/-- Resolution of a credential option:
`str(_opts.get(key, "") or "").strip()`. -/
def resolveOpt (raw : Option String) : String := pstrip (raw.getD "")

/-- The source's `scrape_once()`: the returned dict (or the propagated exception, when
one escapes the `except` clause), paired with the capability calls the
cycle performed.  The `finally` block quits the driver whenever the session
was opened, on every exit path. -/
def scrape_once (env : ScrapeEnv) : Except PyExc Snapshot × List SessionEvent :=
  if env.email = "" ∨ env.password = "" then
    (Except.ok ⟨"error", 0, [], some "Missing EMAIL or PASSWORD add-on options"⟩, [])
  else
    match env.openOutcome with
    | some e =>
        if isCaught e.cls then (Except.ok ⟨"error", 0, [], some e.msg⟩, [])
        else (Except.error e, [])
    | none =>
        match env.cycleOutcome with
        | some e =>
            if isCaught e.cls then
              (Except.ok ⟨"error", 0, [], some e.msg⟩,
                [SessionEvent.sessionOpen, SessionEvent.sessionQuit])
            else
              (Except.error e,
                [SessionEvent.sessionOpen, SessionEvent.sessionQuit])
        | none =>
            let rows := parse_measuring_points env.tableRows
            (Except.ok ⟨"ok", rows.length, rows, none⟩,
              [SessionEvent.sessionOpen, SessionEvent.sessionQuit])

/-- State of the background loop thread: whether it is still running, and
the currently published `_latest` snapshot. -/
structure LoopState where
  alive : Bool
  latest : Snapshot
deriving Repr, DecidableEq

/-- One iteration of `background_loop`: run `scrape_once` and publish its
result; an exception escaping `scrape_once` kills the thread, leaving the
previous snapshot in place. -/
def loopStep (env : ScrapeEnv) (st : LoopState) : LoopState :=
  if st.alive then
    match (scrape_once env).1 with
    | Except.ok snap => ⟨true, snap⟩
    | Except.error _ => ⟨false, st.latest⟩
  else st

/-- The loop state after `n` iterations of `background_loop`, iteration `k`
running in environment `envs k`. -/
def loopRun (envs : Nat → ScrapeEnv) : Nat → LoopState
  | 0 => ⟨true, initialLatest⟩
  | n + 1 => loopStep (envs n) (loopRun envs n)

/-- The spec's snapshot invariant. -/
def SnapInv (s : Snapshot) : Prop :=
  (s.status = "ok" → s.error = none ∧ s.count = s.measuring_points.length) ∧
  (s.status = "error" → s.measuring_points = [])

/-! ## Concrete sample data -/

/-- A well-formed data row used to instantiate the row-filter claims. -/
def goodRow : Row :=
  ⟨some "odd", [⟨"1", none, none⟩, ⟨"x", none, none⟩, ⟨"P1", none, none⟩,
    ⟨"G1", none, none⟩, ⟨"21.5 °C", some "21.5 °C", none⟩,
    ⟨"today", none, none⟩, ⟨"id1", none, none⟩]⟩

/-- A kept row whose group cell holds a nested link with empty text and an
empty cell text. -/
def emptyLinkRow : Row :=
  ⟨none, [Cell.dflt, Cell.dflt, Cell.dflt, ⟨"", none, some ""⟩,
    Cell.dflt, Cell.dflt, Cell.dflt]⟩

/-- An environment whose cycle succeeds and extracts one row. -/
def okEnv : ScrapeEnv := ⟨"user", "pw", none, none, [goodRow]⟩

/-- An environment whose cycle raises an exception outside the caught
classes. -/
def crashEnv : ScrapeEnv := ⟨"user", "pw", none, some ⟨ExcClass.other, "boom"⟩, []⟩

/-! ## Lemmas about the cell parser -/

theorem getMField_init (f : MField) : getMField f CellOut.init = none := by
  cases f <;> rfl

theorem getMField_set (o : CellOut) (g f : MField) (v : Rat) :
    getMField f (setMField o g v) = if g = f then some v else getMField f o := by
  cases o
  cases g <;> cases f <;> simp [getMField, setMField]

/-- One loop iteration equals the contribution of the line's entry. -/
theorem stepLine_eq (out : CellOut) (ln : List Char) :
    stepLine out ln = (lineEntry ln).elim out fun e => setMField out e.1 e.2 := by
  unfold stepLine lineEntry classifyLine
  cases extractFloatChars ln with
  | none => rfl
  | some v =>
      dsimp only
      split_ifs <;> rfl

/-- The line loop is the fold of the line entries. -/
theorem foldl_stepLine (ls : List (List Char)) :
    ∀ out, ls.foldl stepLine out =
      (ls.filterMap lineEntry).foldl (fun o e => setMField o e.1 e.2) out := by
  induction ls with
  | nil => intro out; rfl
  | cons ln ls ih =>
      intro out
      rw [List.foldl_cons, List.filterMap_cons, stepLine_eq]
      cases h : lineEntry ln with
      | none => exact ih out
      | some e => rw [List.foldl_cons]; exact ih _

/-- Projecting a field out of the entry fold is the overwrite fold of that
field's values. -/
theorem getMField_foldl (f : MField) (es : List (MField × Rat)) :
    ∀ out, getMField f (es.foldl (fun o e => setMField o e.1 e.2) out) =
      es.foldl (fun acc e => if e.1 = f then some e.2 else acc) (getMField f out) := by
  induction es with
  | nil => intro out; rfl
  | cons e es ih =>
      intro out
      rw [List.foldl_cons, List.foldl_cons, ih, getMField_set]

/-- The overwrite fold finds the last matching entry. -/
theorem foldl_overwrite_eq_find (f : MField) (es : List (MField × Rat)) :
    ∀ acc, es.foldl (fun acc e => if e.1 = f then some e.2 else acc) acc =
      (es.reverse.find? (fun e => decide (e.1 = f))).elim acc (fun e => some e.2) := by
  induction es with
  | nil => intro acc; rfl
  | cons e es ih =>
      intro acc
      rw [List.foldl_cons, List.reverse_cons, List.find?_append, ih]
      cases (es.reverse.find? (fun e => decide (e.1 = f))) with
      | some x => rfl
      | none =>
          by_cases h : e.1 = f
          · simp [List.find?, h]
          · simp [List.find?, h]

theorem lastFor_eq_foldl (f : MField) (es : List (MField × Rat)) :
    lastFor f es = es.foldl (fun acc e => if e.1 = f then some e.2 else acc) none := by
  rw [foldl_overwrite_eq_find]
  unfold lastFor
  cases (es.reverse.find? (fun e => decide (e.1 = f))) <;> rfl

/-- Each field of the parsed cell holds the value of the last line
classified to it. -/
theorem parse_field_last (s : String) (f : MField) :
    getMField f (parse_measurements_cell s) =
      lastFor f ((cellLines s).filterMap lineEntry) := by
  unfold parse_measurements_cell
  rw [foldl_stepLine, getMField_foldl, getMField_init, lastFor_eq_foldl]

theorem cellOut_ext (o₁ o₂ : CellOut) (h : ∀ f, getMField f o₁ = getMField f o₂) :
    o₁ = o₂ := by
  cases o₁
  cases o₂
  have ht := h .temp
  have hh := h .hum
  have hd := h .dew
  have ha := h .abs
  simp only [getMField] at ht hh hd ha
  subst ht hh hd ha
  rfl

/-! ## Claims about the cell parser -/

/-- C2: the cell parser splits its input into non-empty trimmed lines, takes
each line's leading signed decimal number, ignores lines without a numeric
prefix, assigns the number to the field of the first marker the line
contains in the precedence order dew point, relative humidity, absolute
humidity, temperature (case-insensitively), with later lines overwriting
earlier ones per field; and on `"21.5 °C\n45 %rH\n9.8 °C Td\n8.2 g/m³"` it
yields temperature 21.5, humidity 45, dew point 9.8, absolute humidity
8.2. -/
theorem claim_C2_parse_cell_algorithm :
    (∀ s, parse_measurements_cell s = parse_cell_spec s) ∧
    parse_measurements_cell "21.5 °C\n45 %rH\n9.8 °C Td\n8.2 g/m³" =
      ⟨some (mkRat 215 10), some (mkRat 45 1), some (mkRat 98 10), some (mkRat 82 10)⟩ := by
  constructor
  · intro s
    apply cellOut_ext
    intro f
    rw [parse_field_last]
    cases f <;> rfl
  · decide

/-- C8: when two or more lines classify to the same field, the parser keeps
the value of the last such line — each field holds the last value among the
lines classified to it — and `parse_cell("20 °C\n22 °C")` yields
temperature 22. -/
theorem claim_C8_last_match_wins :
    (∀ s f, getMField f (parse_measurements_cell s) =
      lastFor f ((cellLines s).filterMap lineEntry)) ∧
    (parse_measurements_cell "20 °C\n22 °C").temperature_c = some (mkRat 22 1) := by
  exact ⟨parse_field_last, by decide⟩

/-- C9: `parse_cell("")` returns all four fields `none`; a line without a
valid numeric prefix never changes the result (it is silently ignored, not
an error), and in particular `parse_cell("n/a\n--")` also returns all four
fields `none`. -/
theorem claim_C9_empty_and_malformed :
    parse_measurements_cell "" = CellOut.init ∧
    parse_measurements_cell "n/a\n--" = CellOut.init ∧
    (∀ out ln, extractFloatChars ln = none → stepLine out ln = out) := by
  refine ⟨by decide, by decide, ?_⟩
  intro out ln h
  unfold stepLine
  rw [h]

/-- Witness for C9: the malformed line `"--"` leaves the state unchanged. -/
theorem claim_C9_witness :
    stepLine CellOut.init "--".data = CellOut.init :=
  claim_C9_empty_and_malformed.2.2 CellOut.init "--".data (by decide)

/-! ## Lemmas and claims about the table extractor -/

theorem keepRow_false_of_details (tr : Row)
    (h : containsSeq "row-details".data ((tr.classAttr.getD "").data) = true) :
    keepRow tr = false := by
  simp [keepRow, h]

theorem keepRow_false_of_short (tr : Row) (h : tr.cells.length < 7) :
    keepRow tr = false := by
  simp [keepRow, h]

/-- The row loop is a filter followed by a map: no sorting, no
deduplication, source order preserved. -/
theorem parse_points_eq_filter_map (trs : List Row) :
    parse_measuring_points trs = (trs.filter keepRow).map rowRecord := by
  induction trs with
  | nil => rfl
  | cons tr rest ih =>
      unfold parse_measuring_points
      by_cases h1 : containsSeq "row-details".data ((tr.classAttr.getD "").data) = true
      · rw [if_pos h1, List.filter_cons, if_neg (by simp [keepRow_false_of_details tr h1]), ih]
      · rw [if_neg h1]
        by_cases h2 : tr.cells.length < 7
        · rw [if_pos h2, List.filter_cons, if_neg (by simp [keepRow_false_of_short tr h2]), ih]
        · have hk : keepRow tr = true := by
            simp [keepRow, h2]
            simpa using h1
          rw [if_neg h2, List.filter_cons, if_pos (by simp [hk]), List.map_cons, ih]

/-- C3: the extractor excludes every row whose class marker contains
`"row-details"` and every row with fewer than 7 cells; what remains is
mapped to records in source order, so a table of `N` rows that are
neither detail rows nor short rows yields exactly those `N` records in
order. -/
theorem claim_C3_row_filtering :
    (∀ trs, parse_measuring_points trs = (trs.filter keepRow).map rowRecord) ∧
    (∀ tr, containsSeq "row-details".data ((tr.classAttr.getD "").data) = true →
      keepRow tr = false) ∧
    (∀ tr, tr.cells.length < 7 → keepRow tr = false) ∧
    (∀ trs, (∀ tr ∈ trs, keepRow tr = true) →
      parse_measuring_points trs = trs.map rowRecord) := by
  refine ⟨parse_points_eq_filter_map, keepRow_false_of_details, keepRow_false_of_short, ?_⟩
  intro trs h
  rw [parse_points_eq_filter_map, List.filter_eq_self.mpr h]

/-- Witness for C3: a table of one valid data row yields exactly that
row's record. -/
theorem claim_C3_witness :
    parse_measuring_points [goodRow] = [goodRow].map rowRecord :=
  claim_C3_row_filtering.2.2.2 [goodRow] (by decide)

/-- Counterexample to C4: on a row whose cell 3 has a nested link with
empty text and an empty cell text — "both are empty" — the extractor's
record carries group `some ""`, not `none` as the claim requires. -/
theorem claim_C4_counterexample :
    (parse_measuring_points [emptyLinkRow]).map Record.group = [some ""] ∧
    (some "" : Option String) ≠ none := by
  exact ⟨by decide, by decide⟩

theorem groupOf_eq_spec (c : Cell) : groupOf c = groupSpecAmended c := by
  unfold groupOf groupSpecAmended emptyToNone
  cases c.linkText <;> rfl

/-- C4 (amended): for every row the extractor keeps, the record's group is
the trimmed text of the nested link in cell 3 whenever such a link exists —
even when that text is empty — otherwise the cell's own trimmed text, and
`none` only when no link exists and the cell text is empty. -/
theorem claim_C4_amended_group_extraction (trs : List Row) :
    (parse_measuring_points trs).map Record.group =
      (trs.filter keepRow).map
        (fun tr => groupSpecAmended (tr.cells.getD 3 Cell.dflt)) := by
  rw [parse_points_eq_filter_map, List.map_map]
  apply List.map_congr_left
  intro tr _
  simp only [Function.comp, rowRecord, groupOf_eq_spec]

/-! ## Lemmas about the scrape cycle and the publish loop -/

/-- Every result of `scrape_once` is an error snapshot, an ok snapshot over
the extracted rows, or a propagated uncaught exception. -/
theorem scrape_result_cases (env : ScrapeEnv) :
    (∃ msg, (scrape_once env).1 = Except.ok ⟨"error", 0, [], some msg⟩) ∨
    (∃ rows, (scrape_once env).1 = Except.ok ⟨"ok", rows.length, rows, none⟩) ∨
    (∃ e, (scrape_once env).1 = Except.error e ∧ isCaught e.cls = false) := by
  unfold scrape_once
  split
  · exact Or.inl ⟨_, rfl⟩
  · split
    · next e heq =>
        split
        · exact Or.inl ⟨_, rfl⟩
        · next hcut => exact Or.inr (Or.inr ⟨e, rfl, by simpa using hcut⟩)
    · split
      · next e heq =>
          split
          · exact Or.inl ⟨_, rfl⟩
          · next hcut => exact Or.inr (Or.inr ⟨e, rfl, by simpa using hcut⟩)
      · exact Or.inr (Or.inl ⟨parse_measuring_points env.tableRows, rfl⟩)

/-- The capability trace of a cycle is empty or open-then-quit. -/
theorem scrape_trace_cases (env : ScrapeEnv) :
    (scrape_once env).2 = [] ∨
    (scrape_once env).2 = [SessionEvent.sessionOpen, SessionEvent.sessionQuit] := by
  unfold scrape_once
  split
  · exact Or.inl rfl
  · split
    · split
      · exact Or.inl rfl
      · exact Or.inl rfl
    · split
      · split
        · exact Or.inr rfl
        · exact Or.inr rfl
      · exact Or.inr rfl

/-- Every snapshot `scrape_once` returns satisfies the snapshot invariant
and has status `"ok"` or `"error"`. -/
theorem scrape_ok_snapInv (env : ScrapeEnv) (snap : Snapshot)
    (h : (scrape_once env).1 = Except.ok snap) :
    SnapInv snap ∧ (snap.status = "ok" ∨ snap.status = "error") := by
  rcases scrape_result_cases env with ⟨msg, hm⟩ | ⟨rows, hr⟩ | ⟨e, he, _⟩
  · rw [hm] at h
    injection h with h2
    subst h2
    exact ⟨⟨fun h' => absurd (show ("error" : String) = "ok" from h') (by decide),
      fun _ => rfl⟩, Or.inr rfl⟩
  · rw [hr] at h
    injection h with h2
    subst h2
    exact ⟨⟨fun _ => ⟨rfl, rfl⟩,
      fun h' => absurd (show ("ok" : String) = "error" from h') (by decide)⟩, Or.inl rfl⟩
  · rw [he] at h
    exact Except.noConfusion h

theorem loopStep_ok (env : ScrapeEnv) (st : LoopState) (snap : Snapshot)
    (h : (scrape_once env).1 = Except.ok snap) (ha : st.alive = true) :
    loopStep env st = ⟨true, snap⟩ := by
  unfold loopStep
  rw [if_pos ha, h]

theorem loopStep_propagate (env : ScrapeEnv) (st : LoopState) (e : PyExc)
    (h : (scrape_once env).1 = Except.error e) (ha : st.alive = true) :
    loopStep env st = ⟨false, st.latest⟩ := by
  unfold loopStep
  rw [if_pos ha, h]

theorem loopStep_dead (env : ScrapeEnv) (st : LoopState)
    (ha : st.alive = false) :
    loopStep env st = st := by
  unfold loopStep
  rw [if_neg (by simp [ha])]

/-! ## Claims about the scrape cycle and the publish loop -/

/-- C1: every snapshot the loop can have published — the initial one and
every value `scrape_once` returned and the loop installed — satisfies the
invariant: status `"ok"` implies no error and `count` equal to the number
of measuring points; status `"error"` implies no measuring points. -/
theorem claim_C1_snapshot_invariant (envs : Nat → ScrapeEnv) (n : Nat) :
    SnapInv ((loopRun envs n).latest) := by
  induction n with
  | zero =>
      show SnapInv initialLatest
      exact ⟨fun h => absurd h (by decide), fun h => absurd h (by decide)⟩
  | succ n ih =>
      show SnapInv ((loopStep (envs n) (loopRun envs n)).latest)
      cases hb : (loopRun envs n).alive with
      | false => rw [loopStep_dead _ _ hb]; exact ih
      | true =>
          cases hres : (scrape_once (envs n)).1 with
          | ok snap =>
              rw [loopStep_ok _ _ _ hres hb]
              exact (scrape_ok_snapInv _ _ hres).1
          | error e =>
              rw [loopStep_propagate _ _ _ hres hb]
              exact ih

/-- Witness for C1 at a concrete loop run. -/
theorem claim_C1_witness : SnapInv ((loopRun (fun _ => okEnv) 1).latest) :=
  claim_C1_snapshot_invariant (fun _ => okEnv) 1

/-- C5: with an empty resolved email or password, `scrape_once` returns an
error snapshot whose message contains `"Missing"`, with count 0 and no
measuring points, and performs no session-capability call at all. -/
theorem claim_C5_missing_credentials (env : ScrapeEnv)
    (h : env.email = "" ∨ env.password = "") :
    scrape_once env =
      (Except.ok ⟨"error", 0, [], some "Missing EMAIL or PASSWORD add-on options"⟩,
        ([] : List SessionEvent)) ∧
    containsSeq "Missing".data "Missing EMAIL or PASSWORD add-on options".data = true := by
  refine ⟨?_, by decide⟩
  unfold scrape_once
  rw [if_pos h]

/-- Witness for C5: empty email short-circuits. -/
theorem claim_C5_witness :
    scrape_once ⟨"", "pw", none, none, []⟩ =
      (Except.ok ⟨"error", 0, [], some "Missing EMAIL or PASSWORD add-on options"⟩,
        ([] : List SessionEvent)) ∧
    containsSeq "Missing".data "Missing EMAIL or PASSWORD add-on options".data = true :=
  claim_C5_missing_credentials ⟨"", "pw", none, none, []⟩ (Or.inl rfl)

/-- Counterexample to C6: a cycle whose session work raises an exception
outside the recognized classes is not converted into a `status:"error"`
snapshot — it propagates out of `scrape_once` — and the scheduler loop does
not survive it: after that cycle the loop thread is dead. -/
theorem claim_C6_counterexample :
    (scrape_once crashEnv).1 = Except.error ⟨ExcClass.other, "boom"⟩ ∧
    (loopRun (fun _ => crashEnv) 1).alive = false := by
  exact ⟨rfl, rfl⟩

/-- C6 (amended): failures raised as `RuntimeError`, `WebDriverException`
or `TimeoutException` during a cycle are converted into a `status:"error"`
result carrying the exception message and no measuring points, and the
scheduler survives every cycle whose `scrape_once` call returns; but an
exception outside those classes propagates out of `scrape_once` uncaught
and terminates the scheduler loop. -/
theorem claim_C6_amended_error_conversion :
    (∀ env e, env.email ≠ "" → env.password ≠ "" →
      (env.openOutcome = some e ∨
        (env.openOutcome = none ∧ env.cycleOutcome = some e)) →
      ((isCaught e.cls = true →
          (scrape_once env).1 = Except.ok ⟨"error", 0, [], some e.msg⟩) ∧
       (isCaught e.cls = false → (scrape_once env).1 = Except.error e))) ∧
    (∀ (envs : Nat → ScrapeEnv) (n : Nat) (snap : Snapshot),
      (scrape_once (envs n)).1 = Except.ok snap →
      (loopRun envs (n + 1)).alive = (loopRun envs n).alive) ∧
    (∀ (envs : Nat → ScrapeEnv) (n : Nat) (e : PyExc),
      (loopRun envs n).alive = true →
      (scrape_once (envs n)).1 = Except.error e →
      (loopRun envs (n + 1)).alive = false) := by
  refine ⟨?_, ?_, ?_⟩
  · intro env e he1 he2 hout
    rcases hout with h | ⟨ho, hc⟩
    · constructor <;> intro hcut <;> simp [scrape_once, h, hcut, he1, he2]
    · constructor <;> intro hcut <;> simp [scrape_once, ho, hc, hcut, he1, he2]
  · intro envs n snap h
    show (loopStep (envs n) (loopRun envs n)).alive = (loopRun envs n).alive
    cases hb : (loopRun envs n).alive with
    | false => rw [loopStep_dead _ _ hb]; exact hb
    | true => rw [loopStep_ok _ _ _ h hb]
  · intro envs n e halive herr
    show (loopStep (envs n) (loopRun envs n)).alive = false
    rw [loopStep_propagate _ _ _ herr halive]

/-- Witness for C6: a caught `WebDriverException` becomes an error
snapshot. -/
theorem claim_C6_witness :
    (scrape_once ⟨"user", "pw", some ⟨ExcClass.webDriver, "net down"⟩, none, []⟩).1 =
      Except.ok ⟨"error", 0, [], some "net down"⟩ :=
  (claim_C6_amended_error_conversion.1
    ⟨"user", "pw", some ⟨ExcClass.webDriver, "net down"⟩, none, []⟩
    ⟨ExcClass.webDriver, "net down"⟩
    (by decide) (by decide) (Or.inl rfl)).1 (by decide)

/-- C7: whenever a cycle has opened the browser session, the session is
also quit, on every exit path — success, classified failure, and
propagated exception alike. -/
theorem claim_C7_session_always_closed (env : ScrapeEnv)
    (h : SessionEvent.sessionOpen ∈ (scrape_once env).2) :
    (scrape_once env).2 = [SessionEvent.sessionOpen, SessionEvent.sessionQuit] := by
  rcases scrape_trace_cases env with h0 | h2
  · rw [h0] at h
    simp at h
  · exact h2

/-- Witness for C7: a successful cycle opens and quits the session. -/
theorem claim_C7_witness :
    (scrape_once okEnv).2 = [SessionEvent.sessionOpen, SessionEvent.sessionQuit] :=
  claim_C7_session_always_closed okEnv (by decide)

/-- C10: before the first publish the latest snapshot is exactly
`{status:"init", count:0, measuring_points:[]}` with no error field; every
snapshot `scrape_once` hands to the loop has status `"ok"` or `"error"`,
so while the loop is alive the `"init"` status never reappears after the
first publish. -/
theorem claim_C10_init_snapshot (envs : Nat → ScrapeEnv) :
    (loopRun envs 0).latest = initialLatest ∧
    initialLatest = ⟨"init", 0, [], none⟩ ∧
    (∀ env snap, (scrape_once env).1 = Except.ok snap →
      snap.status = "ok" ∨ snap.status = "error") ∧
    (∀ n, (loopRun envs (n + 1)).alive = true →
      (loopRun envs (n + 1)).latest.status ≠ "init") := by
  refine ⟨rfl, rfl, ?_, ?_⟩
  · intro env snap h
    exact (scrape_ok_snapInv env snap h).2
  · intro n halive
    rw [show loopRun envs (n + 1) = loopStep (envs n) (loopRun envs n) from rfl] at halive ⊢
    cases hb : (loopRun envs n).alive with
    | false =>
        rw [loopStep_dead _ _ hb, hb] at halive
        exact Bool.noConfusion halive
    | true =>
        cases hres : (scrape_once (envs n)).1 with
        | ok snap =>
            rw [loopStep_ok _ _ _ hres hb]
            intro hinit
            have hinit' : snap.status = "init" := hinit
            rcases (scrape_ok_snapInv _ _ hres).2 with h | h <;>
              rw [h] at hinit'
            · exact absurd hinit' (by decide)
            · exact absurd hinit' (by decide)
        | error e =>
            rw [loopStep_propagate _ _ _ hres hb] at halive
            exact Bool.noConfusion halive

/-- Witness for C10: after one successful cycle the status is not
`"init"`. -/
theorem claim_C10_witness :
    (loopRun (fun _ => okEnv) 1).latest.status ≠ "init" :=
  (claim_C10_init_snapshot (fun _ => okEnv)).2.2.2 0 (by decide)

end SaverisScraper
